import Mathlib

/-!
Shallow embedding of the meshstack command-line orchestrator (src/main.rs)
and verification of the frozen specification claims.

The embedding models each orchestration function as a pure function from its
CLI inputs, an immutable per-invocation context, and an explicit world model
(filesystem facts, test-environment toggles, external-process oracle) to a
trace of observable events (spawned processes and printed lines) together
with an optional terminal error message.  Printed lines whose content is a
pure rendering of a resolved command vector are modelled structurally as
preview events so that theorems can speak about the resolved argument list.
-/

namespace Meshstack

/-- The persisted project configuration record (struct MeshstackConfig,
    src/main.rs lines 207-213): four string fields. -/
structure MeshstackConfig where
  project_name : String
  language : String
  service_mesh : String
  ci_cd : String
deriving DecidableEq, Repr

/-- Per-invocation context (struct MeshstackContext, src/main.rs lines
    216-221): loaded configuration, optional kube context, dry-run flag. -/
structure MeshstackContext where
  config : Option MeshstackConfig
  kubeContext : Option String
  dryRun : Bool
deriving DecidableEq, Repr

/-- A directory entry of the services root, as seen by fs::read_dir:
    a name and whether the entry is a directory. -/
structure DirEntry where
  name : String
  isDir : Bool
deriving DecidableEq, Repr

/-- Observable events of an invocation.
    `spawn` is an actually executed external process (Command::output);
    `preview` is the println of the form
    `DRY RUN: Would execute <prog> command: <prog> <args joined by spaces>`
    emitted by the MESHSTACK_TEST_DRY_RUN_* branches, carried structurally
    (its rendered text is a pure function of prog and args);
    `info` is any other println line. -/
inductive Event where
  | spawn (prog : String) (args : List String)
  | preview (prog : String) (args : List String)
  | info (s : String)
deriving DecidableEq, Repr

/-- World model: test-environment dry-run toggles (MESHSTACK_TEST_DRY_RUN_*),
    filesystem facts consulted by the orchestrator, and an oracle for the
    exit status / captured output of spawned external processes. -/
structure World where
  testDryRunHelm : Bool
  testDryRunDocker : Bool
  testDryRunKubectl : Bool
  servicesDirExists : Bool
  serviceEntries : List DirEntry
  dockerfileExists : String → Bool
  chartExists : String → Bool
  valuesFileExists : String → Bool
  execOk : String → List String → Bool
  execOut : String → List String → String
  execErr : String → List String → String

/-- MeshstackContext::add_kube_context_args (src/main.rs lines 257-261):
    appends `--kube-context <ctx>` when a kube context is present. -/
def kubeContextArgs (ctx : MeshstackContext) : List String :=
  match ctx.kubeContext with
  | some c => ["--kube-context", c]
  | none => []

/-- run_command (src/main.rs lines 347-360): runs the command, returns its
    stdout on success, or an error naming the command and surfacing the
    captured stdout and stderr on nonzero exit.  The spawn event itself is
    recorded by the callers of this model. -/
def runCommand (w : World) (prog : String) (args : List String)
    (commandName : String) : Except String String :=
  if w.execOk prog args then
    Except.ok (w.execOut prog args)
  else
    Except.error (commandName ++ " command failed:\nStdout: " ++ w.execOut prog args
      ++ "\nStderr: " ++ w.execErr prog args)

/-- The ordered keys of the component catalog, in the order of the match
    arms at src/main.rs lines 745-750 (the same order as the default
    install list at lines 756-760 and the destroy list at line 577). -/
def catalogKeys : List String :=
  ["istio", "prometheus", "grafana", "cert-manager", "nginx-ingress", "vault"]

/-- The component-name-to-chart-coordinate table of install_component
    (src/main.rs lines 744-751); `none` models the bail! arm. -/
def componentChart (c : String) : Option String :=
  if c = "istio" then some "istio/istio"
  else if c = "prometheus" then some "prometheus-community/prometheus"
  else if c = "grafana" then some "grafana/grafana"
  else if c = "cert-manager" then some "cert-manager/cert-manager"
  else if c = "nginx-ingress" then some "ingress-nginx/ingress-nginx"
  else if c = "vault" then some "hashicorp/vault"
  else none

/-- The literal default install list of install_component
    (src/main.rs lines 755-761): five (release, chart) pairs, vault absent. -/
def defaultInstallSet : List (String × String) :=
  [("istio", "istio/istio"),
   ("prometheus", "prometheus-community/prometheus"),
   ("grafana", "grafana/grafana"),
   ("cert-manager", "cert-manager/cert-manager"),
   ("nginx-ingress", "ingress-nginx/ingress-nginx")]

/-- The literal infrastructure list of destroy_project (src/main.rs
    line 577): all six components, vault included. -/
def infraComponents : List String :=
  ["istio", "prometheus", "grafana", "cert-manager", "nginx-ingress", "vault"]

/-- Target resolution of install_component (src/main.rs lines 743-762):
    an explicit component is looked up in the catalog (bailing with the
    UnknownTarget message on a miss); otherwise the default set is used,
    after the `No component specified` line. -/
def resolveInstallTargets (component : Option String) :
    List Event × Except String (List (String × String)) :=
  match component with
  | some comp =>
    match componentChart comp with
    | some chart => ([], Except.ok [(comp, chart)])
    | none => ([], Except.error ("Unknown component: " ++ comp
        ++ ". Valid components are: istio, prometheus, grafana, cert-manager, nginx-ingress, vault"))
  | none =>
    ([Event.info "No component specified, installing default set."],
     Except.ok defaultInstallSet)

/-- Profile-to-values-file resolution performed inside the install loop
    (src/main.rs lines 791-803): `dev`/`prod` contribute a
    `--values <file>` pair, `custom` bails with the NotImplemented message,
    anything else bails with the unknown-profile message, and an absent
    profile contributes nothing. -/
def profileValuesArgs (profile : Option String) : Except String (List String) :=
  match profile with
  | none => Except.ok []
  | some p =>
    if p = "dev" then Except.ok ["--values", "dev-values.yaml"]
    else if p = "prod" then Except.ok ["--values", "prod-values.yaml"]
    else if p = "custom" then Except.error "Custom profile not yet implemented."
    else Except.error ("Unknown profile: " ++ p ++ ". Valid profiles are: dev, prod, custom")

/-- The per-target loop of install_component (src/main.rs lines 777-814):
    for each (release, chart) pair it prints the attempt line, builds the
    argument vector `install <release> <chart>` then `--dry-run` (when the
    context dry-run flag is set) then the kube-context pair then the values
    pair, and either previews it (helm test toggle set) or spawns it,
    aborting the batch on the first failure. -/
def installLoop (w : World) (ctx : MeshstackContext) (profile : Option String) :
    List (String × String) → List Event × Option String
  | [] => ([], none)
  | (release, chart) :: rest =>
    let ev0 := [Event.info ("Attempting to install " ++ release ++ " from chart " ++ chart)]
    let base := ["install", release, chart]
      ++ (if ctx.dryRun then ["--dry-run"] else []) ++ kubeContextArgs ctx
    match profileValuesArgs profile with
    | Except.error e => (ev0, some e)
    | Except.ok valArgs =>
      let args := base ++ valArgs
      if w.testDryRunHelm then
        let r := installLoop w ctx profile rest
        (ev0 ++ [Event.preview "helm" args] ++ r.1, r.2)
      else
        match runCommand w "helm" args ("helm upgrade --install " ++ release) with
        | Except.error e => (ev0 ++ [Event.spawn "helm" args], some e)
        | Except.ok out =>
          let r := installLoop w ctx profile rest
          (ev0 ++ [Event.spawn "helm" args]
            ++ [Event.info ("Successfully deployed service: " ++ release ++ "\n" ++ out)]
            ++ r.1, r.2)

/-- install_component (src/main.rs lines 736-817): resolves targets, prints
    the profile line, checks helm availability by spawning `helm version`
    (unless the helm test toggle is set), then runs the per-target loop. -/
def installComponent (component profile : Option String)
    (ctx : MeshstackContext) (w : World) : List Event × Option String :=
  let ev0 := [Event.info "Installing components..."]
  match resolveInstallTargets component with
  | (ev1, Except.error e) => (ev0 ++ ev1, some e)
  | (ev1, Except.ok targets) =>
    let ev2 := match profile with
      | some p => [Event.info ("Applying profile: " ++ p)]
      | none => []
    if w.testDryRunHelm then
      let r := installLoop w ctx profile targets
      (ev0 ++ ev1 ++ ev2 ++ r.1, r.2)
    else
      let evv := [Event.spawn "helm" ["version"]]
      if w.execOk "helm" ["version"] then
        let r := installLoop w ctx profile targets
        (ev0 ++ ev1 ++ ev2 ++ evv ++ r.1, r.2)
      else
        (ev0 ++ ev1 ++ ev2 ++ evv,
         some "Helm is not installed or not found in PATH. Please install Helm to proceed. Refer to https://helm.sh/docs/intro/install/ for instructions.")

/-- Service discovery as performed at the three enumeration sites
    (deploy_service lines 454-458, destroy_project lines 586-595,
    status_project lines 386-395): filter the directory entries to
    directories and take their names, preserving directory-entry order.
    No sorting is applied by any of the three sites. -/
def discoveredServiceNames (entries : List DirEntry) : List String :=
  (entries.filter (fun e => e.isDir)).map (fun e => e.name)

/-- build_docker_image (src/main.rs lines 632-653): requires a Dockerfile,
    then builds `docker build -t meshstack/<name>:latest services/<name>`,
    previewing it under the docker test toggle and spawning it otherwise. -/
def buildDockerImage (name : String) (config : MeshstackConfig) (w : World) :
    List Event × Option String :=
  let ev0 := [Event.info ("Building Docker image for " ++ name
    ++ " (language: " ++ config.language ++ ")...")]
  if w.dockerfileExists name then
    let args := ["build", "-t", "meshstack/" ++ name ++ ":latest", "services/" ++ name]
    if w.testDryRunDocker then
      (ev0 ++ [Event.preview "docker" args], none)
    else
      match runCommand w "docker" args "docker build" with
      | Except.error e => (ev0 ++ [Event.spawn "docker" args], some e)
      | Except.ok out =>
        (ev0 ++ [Event.spawn "docker" args]
          ++ [Event.info ("Successfully built Docker image: meshstack/" ++ name
               ++ ":latest\n" ++ out)], none)
  else
    (ev0, some ("Dockerfile not found in services/" ++ name ++ "."))

/-- push_docker_image (src/main.rs lines 655-671). -/
def pushDockerImage (name : String) (w : World) : List Event × Option String :=
  let ev0 := [Event.info ("Pushing Docker image for " ++ name ++ " to registry...")]
  let args := ["push", "meshstack/" ++ name ++ ":latest"]
  if w.testDryRunDocker then
    (ev0 ++ [Event.preview "docker" args], none)
  else
    match runCommand w "docker" args "docker push" with
    | Except.error e => (ev0 ++ [Event.spawn "docker" args], some e)
    | Except.ok out =>
      (ev0 ++ [Event.spawn "docker" args]
        ++ [Event.info ("Successfully pushed Docker image: meshstack/" ++ name
             ++ ":latest\n" ++ out)], none)

/-- Environment-to-values resolution of deploy_helm_chart (src/main.rs
    lines 514-531): dev/prod/staging map to `<env>-values.yaml`, anything
    else (including `custom`) bails with the unknown-environment message;
    a resolved file is passed via `--values` only when it exists on disk,
    otherwise a warning line is printed and the flag is omitted. -/
def envValuesArgs (env : Option String) (w : World) :
    Except String (List String × List Event) :=
  match env with
  | none => Except.ok ([], [])
  | some e =>
    let file? :=
      if e = "dev" then Except.ok "dev-values.yaml"
      else if e = "prod" then Except.ok "prod-values.yaml"
      else if e = "staging" then Except.ok "staging-values.yaml"
      else Except.error ("Unknown environment: " ++ e
        ++ ". Valid environments are: dev, prod, staging")
    match file? with
    | Except.error msg => Except.error msg
    | Except.ok file =>
      if w.valuesFileExists file then Except.ok (["--values", file], [])
      else Except.ok ([],
        [Event.info ("Warning: Environment values file " ++ file ++ " not found. Skipping.")])

/-- deploy_helm_chart (src/main.rs lines 491-544): requires Chart.yaml in
    the service directory, then builds
    `upgrade --install meshstack-<name> services/<name>` plus kube-context
    and values arguments, previewing under the helm test toggle and
    spawning otherwise. -/
def deployHelmChart (name : String) (env : Option String)
    (ctx : MeshstackContext) (w : World) : List Event × Option String :=
  let ev0 := [Event.info ("Deploying Helm chart for service: " ++ name ++ "...")]
  if w.chartExists name then
    let release := "meshstack-" ++ name
    let base := ["upgrade", "--install", release, "services/" ++ name]
      ++ kubeContextArgs ctx
    match envValuesArgs env w with
    | Except.error e => (ev0, some e)
    | Except.ok (valArgs, warnEv) =>
      let args := base ++ valArgs
      if w.testDryRunHelm then
        (ev0 ++ warnEv ++ [Event.preview "helm" args], none)
      else
        match runCommand w "helm" args ("helm upgrade --install " ++ release) with
        | Except.error e => (ev0 ++ warnEv ++ [Event.spawn "helm" args], some e)
        | Except.ok out =>
          (ev0 ++ warnEv ++ [Event.spawn "helm" args]
            ++ [Event.info ("Successfully deployed service: " ++ name ++ "\n" ++ out)], none)
  else
    (ev0, some ("Helm chart (Chart.yaml) not found in services/" ++ name ++ "."))

/-- The per-service body of the deploy loop (src/main.rs lines 466-485):
    header line, optional build, optional push, then the helm deployment
    unless any of the three test dry-run toggles is set. -/
def deployStep (name : String) (env : Option String) (build push : Bool)
    (config : MeshstackConfig) (ctx : MeshstackContext) (w : World) :
    List Event × Option String :=
  let ev0 := [Event.info ("\n--- Deploying service: " ++ name ++ " ---")]
  let b := if build then buildDockerImage name config w else ([], none)
  match b.2 with
  | some e => (ev0 ++ b.1, some e)
  | none =>
    let p := if push then pushDockerImage name w else ([], none)
    match p.2 with
    | some e => (ev0 ++ b.1 ++ p.1, some e)
    | none =>
      if w.testDryRunHelm = false ∧ w.testDryRunDocker = false
          ∧ w.testDryRunKubectl = false then
        let h := deployHelmChart name env ctx w
        (ev0 ++ b.1 ++ p.1 ++ h.1, h.2)
      else
        (ev0 ++ b.1 ++ p.1, none)

/-- The deploy loop over the resolved service list (fail-fast: the first
    failing service aborts the remainder). -/
def deployLoop (env : Option String) (build push : Bool)
    (config : MeshstackConfig) (ctx : MeshstackContext) (w : World) :
    List String → List Event × Option String
  | [] => ([], none)
  | name :: rest =>
    let s := deployStep name env build push config ctx w
    match s.2 with
    | some e => (s.1, some e)
    | none =>
      let r := deployLoop env build push config ctx w rest
      (s.1 ++ r.1, r.2)

/-- deploy_service (src/main.rs lines 425-489): prints the environment and
    context lines, requires the configuration and the services root,
    resolves the target list (an explicit name is accepted as-is with no
    existence check; otherwise the directory entries that are directories,
    in directory order), then deploys each target in order. -/
def deployService (serviceName env : Option String) (build push : Bool)
    (ctx : MeshstackContext) (w : World) : List Event × Option String :=
  let ev0 := [Event.info "Deploying service..."]
  let ev1 := match env with
    | some e => [Event.info ("Applying environment profile: " ++ e)]
    | none => []
  let ev2 := match ctx.kubeContext with
    | some c => [Event.info ("Targeting Kubernetes context: " ++ c)]
    | none => []
  match ctx.config with
  | none => (ev0 ++ ev1 ++ ev2,
      some "meshstack.yaml not found or invalid. Run 'meshstack init' first.")
  | some config =>
    if w.servicesDirExists then
      let resolved := match serviceName with
        | some svc => ([Event.info ("Deploying specific service: " ++ svc)], [svc])
        | none => ([Event.info "Deploying all services."],
            discoveredServiceNames w.serviceEntries)
      if resolved.2.isEmpty then
        (ev0 ++ ev1 ++ ev2 ++ resolved.1 ++ [Event.info "No services found to deploy."], none)
      else
        let r := deployLoop env build push config ctx w resolved.2
        match r.2 with
        | some e => (ev0 ++ ev1 ++ ev2 ++ resolved.1 ++ r.1, some e)
        | none => (ev0 ++ ev1 ++ ev2 ++ resolved.1 ++ r.1
            ++ [Event.info "\nDeployment process completed."], none)
    else
      (ev0 ++ ev1 ++ ev2,
       some "Services directory not found. Please run `meshstack init` first.")

/-- uninstall_helm_release (src/main.rs lines 610-630): builds
    `uninstall <release>` plus kube-context arguments, previewing under
    the helm test toggle and spawning otherwise. -/
def uninstallHelmRelease (release : String) (ctx : MeshstackContext) (w : World) :
    List Event × Option String :=
  let ev0 := [Event.info ("Uninstalling Helm release: " ++ release ++ "...")]
  let args := ["uninstall", release] ++ kubeContextArgs ctx
  if w.testDryRunHelm then
    (ev0 ++ [Event.preview "helm" args], none)
  else
    match runCommand w "helm" args ("helm uninstall " ++ release) with
    | Except.error e => (ev0 ++ [Event.spawn "helm" args], some e)
    | Except.ok out =>
      (ev0 ++ [Event.spawn "helm" args]
        ++ [Event.info ("Successfully uninstalled Helm release: " ++ release ++ "\n" ++ out)],
       none)

/-- The uninstall loop over a list of (printed label line, release name)
    pairs, fail-fast (the ? operator inside the destroy loops). -/
def uninstallLoop (ctx : MeshstackContext) (w : World) :
    List (String × String) → List Event × Option String
  | [] => ([], none)
  | (label, release) :: rest =>
    let u := uninstallHelmRelease release ctx w
    match u.2 with
    | some e => ([Event.info label] ++ u.1, some e)
    | none =>
      let r := uninstallLoop ctx w rest
      ([Event.info label] ++ u.1 ++ r.1, r.2)

/-- destroy_project (src/main.rs lines 546-608): the confirmation gate is
    evaluated once, up front — with no confirmation and any of service /
    component / full / all selected it prints the notice and returns
    immediately (no target resolution is performed); otherwise it
    uninstalls the explicit service, the explicit component, and under
    full/all the six infrastructure components followed by every
    discovered service, in that order. -/
def destroyProject (service component : Option String) (full : Bool)
    (ctx : MeshstackContext) (confirm all : Bool) (w : World) :
    List Event × Option String :=
  let ev0 := [Event.info "Destroying project..."]
  let destroyFull := full || all
  if confirm = false ∧ (service.isSome || component.isSome || destroyFull) = true then
    (ev0 ++ [Event.info "Dry run complete. No resources were destroyed. Use --confirm to proceed."],
     none)
  else
    let svcTargets := match service with
      | some svc => [("Destroying service: " ++ svc, "meshstack-" ++ svc)]
      | none => []
    let compTargets := match component with
      | some comp => [("Destroying component: " ++ comp, comp)]
      | none => []
    let s := uninstallLoop ctx w svcTargets
    match s.2 with
    | some e => (ev0 ++ s.1, some e)
    | none =>
      let c := uninstallLoop ctx w compTargets
      match c.2 with
      | some e => (ev0 ++ s.1 ++ c.1, some e)
      | none =>
        if destroyFull then
          let evf := [Event.info "Destroying all resources."]
          let infra := infraComponents.map
            (fun comp => ("Uninstalling infrastructure component: " ++ comp, comp))
          let i := uninstallLoop ctx w infra
          match i.2 with
          | some e => (ev0 ++ s.1 ++ c.1 ++ evf ++ i.1, some e)
          | none =>
            let svcs := if w.servicesDirExists then
                (discoveredServiceNames w.serviceEntries).map
                  (fun n => ("Uninstalling service: " ++ n, "meshstack-" ++ n))
              else []
            let d := uninstallLoop ctx w svcs
            match d.2 with
            | some e => (ev0 ++ s.1 ++ c.1 ++ evf ++ i.1 ++ d.1, some e)
            | none =>
              let evp := [Event.info "Local project files (meshstack.yaml, services/, provision/) would be removed with --all. This is a placeholder."]
              let evc := if confirm then
                  [Event.info "Confirmation received. Proceeding with destruction."]
                else []
              (ev0 ++ s.1 ++ c.1 ++ evf ++ i.1 ++ d.1 ++ evp ++ evc, none)
        else
          let evc := if confirm then
              [Event.info "Confirmation received. Proceeding with destruction."]
            else []
          (ev0 ++ s.1 ++ c.1 ++ evc, none)

/-- The --services section of status_project (src/main.rs lines 381-402):
    lists every directory entry of the services root that is a directory,
    in directory order, or a fallback line. -/
def statusServicesSection (w : World) : List Event :=
  [Event.info "\n--- Running App Services ---"] ++
  (if w.servicesDirExists then
    let names := discoveredServiceNames w.serviceEntries
    (names.map (fun n => Event.info ("Service: " ++ n ++ " (Status: Running - placeholder)")))
      ++ (if names.isEmpty then
            [Event.info "No services found in the 'services/' directory."]
          else [])
   else [Event.info "'services/' directory not found."])

/-- The options recognised by plan_install_command's hand-rolled argument
    scanner (src/main.rs lines 2120-2149). -/
structure PlanInstallArgs where
  component : Option String
  profile : Option String
  context : Option String
deriving DecidableEq, Repr

/-- The argument-scanning loop of plan_install_command (src/main.rs lines
    2125-2149): a recognised flag consumes the following value when one
    exists; unrecognised tokens are skipped. -/
def planInstallParse : List String → PlanInstallArgs → PlanInstallArgs
  | [], acc => acc
  | a :: rest, acc =>
    if a = "--component" ∨ a = "-c" then
      match rest with
      | v :: rest2 => planInstallParse rest2 { acc with component := some v }
      | [] => acc
    else if a = "--profile" ∨ a = "-p" then
      match rest with
      | v :: rest2 => planInstallParse rest2 { acc with profile := some v }
      | [] => acc
    else if a = "--context" then
      match rest with
      | v :: rest2 => planInstallParse rest2 { acc with context := some v }
      | [] => acc
    else planInstallParse rest acc

/-- The chart table re-implemented inside plan_install_command (src/main.rs
    lines 2160-2168): unlike the install path it never fails, mapping any
    unknown name to the placeholder coordinate "unknown/unknown". -/
def planChartName (c : String) : String :=
  if c = "istio" then "istio/istio"
  else if c = "prometheus" then "prometheus-community/prometheus"
  else if c = "grafana" then "grafana/grafana"
  else if c = "cert-manager" then "cert-manager/cert-manager"
  else if c = "nginx-ingress" then "ingress-nginx/ingress-nginx"
  else if c = "vault" then "hashicorp/vault"
  else "unknown/unknown"

/-- plan_install_command (src/main.rs lines 2117-2198): parses its raw
    argument list, resolves the component list (the explicit name taken
    as-is, or the five-member default), and renders one bullet line per
    component with the chart from `planChartName`; it performs no external
    invocation and never fails. -/
def planInstallCommand (args : List String) (verbose : Bool) :
    List Event × Option String :=
  let parsed := planInstallParse args
    { component := none, profile := none, context := none }
  let components := match parsed.component with
    | some comp => [comp]
    | none => ["istio", "prometheus", "grafana", "cert-manager", "nginx-ingress"]
  let ev0 := [Event.info "\n🔧 Planning 'install' command execution:"]
  let ev1 := [Event.info "📦 Components that would be installed:"]
  let evComps := components.flatMap (fun comp =>
    [Event.info ("  • " ++ comp ++ " (from chart: " ++ planChartName comp ++ ")")]
    ++ (if verbose then
        [Event.info ("    - Helm command: helm install " ++ comp ++ " " ++ planChartName comp)]
        ++ (match parsed.profile with
            | some p => [Event.info ("    - Profile: " ++ p ++ " (values file: " ++ p ++ "-values.yaml)")]
            | none => [])
        ++ (match parsed.context with
            | some c => [Event.info ("    - Kubernetes context: " ++ c)]
            | none => [])
      else []))
  let evProfile := match parsed.profile with
    | some p => [Event.info ("🎯 Profile: " ++ p)]
    | none => []
  let evCtx := match parsed.context with
    | some c => [Event.info ("🎯 Target Kubernetes context: " ++ c)]
    | none => [Event.info "🎯 Target Kubernetes context: current-context"]
  (ev0 ++ ev1 ++ evComps ++ evProfile ++ evCtx
    ++ [Event.info "\n⚠️  Prerequisites:",
        Event.info "  • Helm must be installed and available in PATH",
        Event.info "  • Kubernetes cluster must be accessible",
        Event.info "  • Required Helm repositories must be added"], none)

/-- plan_command's dispatch for the install subcommand (src/main.rs lines
    2084-2114): the planning banner, then plan_install_command, then the
    completion lines.  Only the install arm is needed by the claims. -/
def planCommandInstall (args : List String) (verbose : Bool) :
    List Event × Option String :=
  let ev0 := [Event.info "📋 Planning execution of 'install' command..."]
  let evV := if verbose then
      [Event.info "🔍 Verbose mode enabled - showing detailed planning information"]
    else []
  let r := planInstallCommand args verbose
  match r.2 with
  | some e => (ev0 ++ evV ++ r.1, some e)
  | none => (ev0 ++ evV ++ r.1
      ++ [Event.info "\n✅ Planning completed successfully!"], none)

/-- Whether an event is a spawned external process. -/
def isSpawn : Event → Bool
  | Event.spawn _ _ => true
  | _ => false

/-- The number of external processes spawned in a trace. -/
def spawnCount (evs : List Event) : Nat :=
  evs.countP isSpawn

/-- The preview lines of a trace, as (program, argument vector) pairs. -/
def previewCmds (evs : List Event) : List (String × List String) :=
  evs.filterMap (fun e => match e with
    | Event.preview p a => some (p, a)
    | _ => none)

/-- The releases passed to `helm uninstall`, across both the spawned and
    the previewed form, in trace order. -/
def uninstallReleases (evs : List Event) : List String :=
  evs.filterMap (fun e => match e with
    | Event.spawn p args =>
      match args with
      | a0 :: r :: _ => if p = "helm" ∧ a0 = "uninstall" then some r else none
      | _ => none
    | Event.preview p args =>
      match args with
      | a0 :: r :: _ => if p = "helm" ∧ a0 = "uninstall" then some r else none
      | _ => none
    | Event.info _ => none)

/-- Whether a spawned process is a chart-mutating helm call (an `install`
    or `upgrade` invocation of the chart tool). -/
def isChartMutatingSpawn : Event → Bool
  | Event.spawn p args =>
    match args with
    | a0 :: _ => p = "helm" ∧ (a0 = "install" ∨ a0 = "upgrade")
    | [] => false
  | _ => false

/-- Modelled from the spec: the structured serializer (serde_yaml, an
    external crate, out of scope per the spec's §1 and used by init at
    src/main.rs line 284 and by load_config at line 245) is modelled as a
    line-per-field text emitter over the four fields in declaration order,
    with backslash and newline escaped so that every field value fits on
    one line.  `escChar` escapes a single character. -/
def escChar (c : Char) : List Char :=
  if c = '\\' then ['\\', '\\']
  else if c = '\n' then ['\\', 'n']
  else [c]

/-- Escape a field value for the one-line-per-field text format. -/
def esc (s : List Char) : List Char :=
  s.flatMap escChar

/-- Decode an escaped field value (inverse of `esc`): a backslash consumes
    the following character (n decoding to a newline); other characters
    pass through. -/
def unesc : List Char → List Char
  | [] => []
  | [c] => if c = '\\' then [] else [c]
  | c :: d :: rest =>
    if c = '\\' then (if d = 'n' then '\n' else d) :: unesc rest
    else c :: unesc (d :: rest)

/-- Join lines with a newline separator (no trailing newline). -/
def joinLines : List (List Char) → List Char
  | [] => []
  | [l] => l
  | l :: ls => l ++ '\n' :: joinLines ls

/-- Split a character stream at newlines (inverse of `joinLines` on
    newline-free lines). -/
def splitLines : List Char → List (List Char)
  | [] => [[]]
  | c :: rest =>
    let r := splitLines rest
    if c = '\n' then [] :: r
    else
      match r with
      | [] => [[c]]
      | l :: ls => (c :: l) :: ls

/-- Modelled from the spec: the serialized form of the configuration record
    written by init — one `key: value` line per field, in the struct's
    field order. -/
def emitConfigLines (c : MeshstackConfig) : List (List Char) :=
  [String.toList "project_name: " ++ esc c.project_name.toList,
   String.toList "language: " ++ esc c.language.toList,
   String.toList "service_mesh: " ++ esc c.service_mesh.toList,
   String.toList "ci_cd: " ++ esc c.ci_cd.toList]

/-- The full serialized configuration file (what init writes to
    meshstack.yaml). -/
def emitConfig (c : MeshstackConfig) : List Char :=
  joinLines (emitConfigLines c)

/-- Drop a required leading key from a line, returning the remainder. -/
def dropLead : List Char → List Char → Option (List Char)
  | [], s => some s
  | _ :: _, [] => none
  | p :: ps, c :: cs => if p = c then dropLead ps cs else none

/-- Modelled from the spec: the structured parser used by load_config —
    splits the file into its four lines, strips each field's key, and
    decodes the escaped values, failing on any structural mismatch. -/
def parseConfig (file : List Char) : Option MeshstackConfig :=
  match splitLines file with
  | [l1, l2, l3, l4] =>
    match dropLead (String.toList "project_name: ") l1,
          dropLead (String.toList "language: ") l2,
          dropLead (String.toList "service_mesh: ") l3,
          dropLead (String.toList "ci_cd: ") l4 with
    | some v1, some v2, some v3, some v4 =>
      some { project_name := String.mk (unesc v1),
             language := String.mk (unesc v2),
             service_mesh := String.mk (unesc v3),
             ci_cd := String.mk (unesc v4) }
    | _, _, _, _ => none
  | _ => none

/-- A sample configuration record. -/
def cfgSample : MeshstackConfig :=
  { project_name := "my-app", language := "generic", service_mesh := "istio", ci_cd := "github" }

/-- A world with no test dry-run toggle set, every external process
    succeeding with empty output, an existing but empty services root, and
    no service descriptor files present. -/
def wReal : World :=
  { testDryRunHelm := false, testDryRunDocker := false, testDryRunKubectl := false,
    servicesDirExists := true, serviceEntries := [],
    dockerfileExists := fun _ => false, chartExists := fun _ => false,
    valuesFileExists := fun _ => true,
    execOk := fun _ _ => true, execOut := fun _ _ => "", execErr := fun _ _ => "" }

/-- `wReal` with the MESHSTACK_TEST_DRY_RUN_HELM toggle set. -/
def wHelmDry : World := { wReal with testDryRunHelm := true }

/-- A context with no configuration, no kube context and no dry-run flag. -/
def ctxPlain : MeshstackContext := { config := none, kubeContext := none, dryRun := false }

/-- A context carrying the sample configuration. -/
def ctxCfg : MeshstackContext :=
  { config := some cfgSample, kubeContext := none, dryRun := false }

/-- `wReal` with a chart descriptor present for every service. -/
def wChart : World := { wReal with chartExists := fun _ => true }

/-- A services root whose directory entries arrive in the order beta, alpha. -/
def entsBA : List DirEntry :=
  [{ name := "beta", isDir := true }, { name := "alpha", isDir := true }]

/-- The same two services, with the directory entries in the other order. -/
def entsAB : List DirEntry :=
  [{ name := "alpha", isDir := true }, { name := "beta", isDir := true }]

lemma mk_toList (s : String) : String.mk s.toList = s := rfl

lemma unesc_cons_backslash (d : Char) (rest : List Char) :
    unesc ('\\' :: d :: rest) = (if d = 'n' then '\n' else d) :: unesc rest := by
  simp [unesc]

lemma unesc_cons_other (c : Char) (h : c ≠ '\\') (rest : List Char) :
    unesc (c :: rest) = c :: unesc rest := by
  cases rest with
  | nil => simp [unesc, h]
  | cons d rest2 => simp [unesc, h]

lemma unesc_esc (s : List Char) : unesc (esc s) = s := by
  induction s with
  | nil => rfl
  | cons c cs ih =>
    have hesc : esc (c :: cs) = escChar c ++ esc cs := by simp [esc]
    rw [hesc]
    by_cases h1 : c = '\\'
    · subst h1
      simp [escChar, unesc_cons_backslash, ih]
    · by_cases h2 : c = '\n'
      · subst h2
        simp [escChar, unesc_cons_backslash, ih]
      · simp [escChar, h1, h2, unesc_cons_other c h1, ih]

lemma newline_not_mem_escChar (c : Char) : '\n' ∉ escChar c := by
  by_cases h1 : c = '\\'
  · simp [escChar, h1]
  · by_cases h2 : c = '\n'
    · simp [escChar, h1, h2]
    · simp [escChar, h1, h2]
      exact fun hx => h2 hx.symm

lemma newline_not_mem_esc (s : List Char) : '\n' ∉ esc s := by
  intro hmem
  simp only [esc] at hmem
  rcases List.mem_flatMap.mp hmem with ⟨a, _, ha⟩
  exact newline_not_mem_escChar a ha

lemma splitLines_no_newline (l : List Char) (h : '\n' ∉ l) : splitLines l = [l] := by
  induction l with
  | nil => rfl
  | cons c cs ih =>
    have hc : c ≠ '\n' := fun hx => h (hx ▸ List.mem_cons_self c cs)
    have hcs : '\n' ∉ cs := fun hx => h (List.mem_cons_of_mem c hx)
    simp [splitLines, hc, ih hcs]

lemma splitLines_append (l rest : List Char) (h : '\n' ∉ l) :
    splitLines (l ++ '\n' :: rest) = l :: splitLines rest := by
  induction l with
  | nil => simp [splitLines]
  | cons c cs ih =>
    have hc : c ≠ '\n' := fun hx => h (hx ▸ List.mem_cons_self c cs)
    have hcs : '\n' ∉ cs := fun hx => h (List.mem_cons_of_mem c hx)
    simp [splitLines, hc, ih hcs]

lemma dropLead_append (p s : List Char) : dropLead p (p ++ s) = some s := by
  induction p with
  | nil => rfl
  | cons c cs ih => simp [dropLead, ih]

lemma emit_line_no_newline (key : List Char) (hk : '\n' ∉ key) (v : List Char) :
    '\n' ∉ key ++ esc v := by
  intro h
  rcases List.mem_append.mp h with h | h
  · exact hk h
  · exact newline_not_mem_esc v h

/-- C9: for every configuration record with all four string fields, writing
    it to the configuration file (as init does) and then reading it back
    (as load_config does) yields a record equal field-for-field to the
    original. -/
theorem c9_config_roundtrip (c : MeshstackConfig) :
    parseConfig (emitConfig c) = some c := by
  have hk1 : '\n' ∉ String.toList "project_name: " := by decide
  have hk2 : '\n' ∉ String.toList "language: " := by decide
  have hk3 : '\n' ∉ String.toList "service_mesh: " := by decide
  have hk4 : '\n' ∉ String.toList "ci_cd: " := by decide
  have l1 := emit_line_no_newline _ hk1 c.project_name.toList
  have l2 := emit_line_no_newline _ hk2 c.language.toList
  have l3 := emit_line_no_newline _ hk3 c.service_mesh.toList
  have l4 := emit_line_no_newline _ hk4 c.ci_cd.toList
  have hsplit : splitLines (emitConfig c) = emitConfigLines c := by
    simp only [emitConfig, emitConfigLines, joinLines]
    rw [splitLines_append _ _ l1, splitLines_append _ _ l2, splitLines_append _ _ l3,
      splitLines_no_newline _ l4]
  simp only [parseConfig, hsplit, emitConfigLines, dropLead_append]
  simp [unesc_esc, mk_toList]

lemma spawnCount_nil : spawnCount [] = 0 := rfl

lemma spawnCount_info (s : String) (l : List Event) :
    spawnCount (Event.info s :: l) = spawnCount l := by
  simp [spawnCount, List.countP_cons, isSpawn]

lemma spawnCount_preview (p : String) (a : List String) (l : List Event) :
    spawnCount (Event.preview p a :: l) = spawnCount l := by
  simp [spawnCount, List.countP_cons, isSpawn]

lemma previewCmds_nil : previewCmds [] = [] := rfl

lemma previewCmds_info (s : String) (l : List Event) :
    previewCmds (Event.info s :: l) = previewCmds l := by
  simp [previewCmds]

lemma previewCmds_preview (p : String) (a : List String) (l : List Event) :
    previewCmds (Event.preview p a :: l) = (p, a) :: previewCmds l := by
  simp [previewCmds]

lemma uninstallReleases_nil : uninstallReleases [] = [] := rfl

lemma uninstallReleases_info (s : String) (l : List Event) :
    uninstallReleases (Event.info s :: l) = uninstallReleases l := by
  simp [uninstallReleases]

lemma uninstallReleases_append (l1 l2 : List Event) :
    uninstallReleases (l1 ++ l2) = uninstallReleases l1 ++ uninstallReleases l2 := by
  simp [uninstallReleases]

lemma uninstallReleases_preview_uninstall (r : String) (k : List String) (l : List Event) :
    uninstallReleases (Event.preview "helm" ("uninstall" :: r :: k) :: l)
      = r :: uninstallReleases l := by
  simp [uninstallReleases]

lemma spawnCount_all_info : ∀ l : List Event,
    (∀ e ∈ l, ∃ s, e = Event.info s) → spawnCount l = 0
  | [], _ => rfl
  | e :: rest, h => by
    obtain ⟨s, rfl⟩ := h e (List.mem_cons_self e rest)
    rw [spawnCount_info]
    exact spawnCount_all_info rest (fun e2 he2 => h e2 (List.mem_cons_of_mem _ he2))

lemma previewCmds_all_info : ∀ l : List Event,
    (∀ e ∈ l, ∃ s, e = Event.info s) → previewCmds l = []
  | [], _ => rfl
  | e :: rest, h => by
    obtain ⟨s, rfl⟩ := h e (List.mem_cons_self e rest)
    rw [previewCmds_info]
    exact previewCmds_all_info rest (fun e2 he2 => h e2 (List.mem_cons_of_mem _ he2))

/-- Under the helm test toggle and a successful profile resolution, the
    install loop spawns nothing, never fails, and previews exactly one
    fully-resolved command per target, in target order. -/
lemma installLoop_dry_props (w : World) (ctx : MeshstackContext) (profile : Option String)
    (vargs : List String) (hw : w.testDryRunHelm = true)
    (hp : profileValuesArgs profile = Except.ok vargs) :
    ∀ ts : List (String × String),
      (installLoop w ctx profile ts).2 = none
      ∧ spawnCount (installLoop w ctx profile ts).1 = 0
      ∧ previewCmds (installLoop w ctx profile ts).1
          = ts.map (fun rc => ("helm", ["install", rc.1, rc.2]
              ++ (if ctx.dryRun then ["--dry-run"] else []) ++ kubeContextArgs ctx ++ vargs))
  | [] => ⟨rfl, rfl, rfl⟩
  | (r, ch) :: rest => by
    obtain ⟨ih1, ih2, ih3⟩ := installLoop_dry_props w ctx profile vargs hw hp rest
    have htail : (installLoop w ctx profile ((r, ch) :: rest)).2
        = (installLoop w ctx profile rest).2 := by
      simp [installLoop, hp, hw]
    have htrace : (installLoop w ctx profile ((r, ch) :: rest)).1
        = Event.info ("Attempting to install " ++ r ++ " from chart " ++ ch)
          :: Event.preview "helm" (["install", r, ch]
               ++ (if ctx.dryRun then ["--dry-run"] else []) ++ kubeContextArgs ctx ++ vargs)
          :: (installLoop w ctx profile rest).1 := by
      simp [installLoop, hp, hw]
    refine ⟨htail.trans ih1, ?_, ?_⟩
    · rw [htrace, spawnCount_info, spawnCount_preview, ih2]
    · rw [htrace, previewCmds_info, previewCmds_preview, ih3]
      rfl

/-- Under the helm test toggle, install_component as a whole spawns
    nothing, succeeds, and emits exactly one preview per resolved target
    carrying the fully-resolved, fixed-order argument vector. -/
lemma installComponent_toggle_props (component profile : Option String)
    (ctx : MeshstackContext)
    (w : World) (ts : List (String × String)) (vargs : List String)
    (hw : w.testDryRunHelm = true)
    (hts : (resolveInstallTargets component).2 = Except.ok ts)
    (hp : profileValuesArgs profile = Except.ok vargs) :
    (installComponent component profile ctx w).2 = none
    ∧ spawnCount (installComponent component profile ctx w).1 = 0
    ∧ (previewCmds (installComponent component profile ctx w).1).length = ts.length
    ∧ previewCmds (installComponent component profile ctx w).1
        = ts.map (fun rc => ("helm", ["install", rc.1, rc.2]
            ++ (if ctx.dryRun then ["--dry-run"] else []) ++ kubeContextArgs ctx ++ vargs)) := by
  obtain ⟨hl1, hl2, hl3⟩ := installLoop_dry_props w ctx profile vargs hw hp ts
  have hpre : ∃ pre : List Event, (∀ e ∈ pre, ∃ s, e = Event.info s)
      ∧ installComponent component profile ctx w
          = (pre ++ (installLoop w ctx profile ts).1, (installLoop w ctx profile ts).2) := by
    cases component with
    | none =>
      have hts2 : ts = defaultInstallSet := by
        simpa [resolveInstallTargets] using hts.symm
      subst hts2
      cases profile with
      | none =>
        refine ⟨[Event.info "Installing components...",
          Event.info "No component specified, installing default set."], ?_, ?_⟩
        · intro e he
          simp at he
          rcases he with rfl | rfl <;> exact ⟨_, rfl⟩
        · simp [installComponent, resolveInstallTargets, hw]
      | some p =>
        refine ⟨[Event.info "Installing components...",
          Event.info "No component specified, installing default set.",
          Event.info ("Applying profile: " ++ p)], ?_, ?_⟩
        · intro e he
          simp at he
          rcases he with rfl | rfl | rfl <;> exact ⟨_, rfl⟩
        · simp [installComponent, resolveInstallTargets, hw]
    | some comp =>
      cases hcc : componentChart comp with
      | none => simp [resolveInstallTargets, hcc] at hts
      | some chart =>
        have hts2 : ts = [(comp, chart)] := by
          simpa [resolveInstallTargets, hcc] using hts.symm
        subst hts2
        cases profile with
        | none =>
          refine ⟨[Event.info "Installing components..."], ?_, ?_⟩
          · intro e he
            simp at he
            subst he
            exact ⟨_, rfl⟩
          · simp [installComponent, resolveInstallTargets, hcc, hw]
        | some p =>
          refine ⟨[Event.info "Installing components...",
            Event.info ("Applying profile: " ++ p)], ?_, ?_⟩
          · intro e he
            simp at he
            rcases he with rfl | rfl <;> exact ⟨_, rfl⟩
          · simp [installComponent, resolveInstallTargets, hcc, hw]
  obtain ⟨pre, hinfo, heq⟩ := hpre
  have hscpre : spawnCount pre = 0 := spawnCount_all_info pre hinfo
  have hpcpre : previewCmds pre = [] := previewCmds_all_info pre hinfo
  rw [heq]
  refine ⟨hl1, ?_, ?_, ?_⟩
  · rw [show spawnCount (pre ++ (installLoop w ctx profile ts).1)
        = spawnCount pre + spawnCount (installLoop w ctx profile ts).1 from by
          simp [spawnCount, List.countP_append], hscpre, hl2]
  · rw [show previewCmds (pre ++ (installLoop w ctx profile ts).1)
        = previewCmds pre ++ previewCmds (installLoop w ctx profile ts).1 from by
          simp [previewCmds], hpcpre, hl3]
    simp
  · rw [show previewCmds (pre ++ (installLoop w ctx profile ts).1)
        = previewCmds pre ++ previewCmds (installLoop w ctx profile ts).1 from by
          simp [previewCmds], hpcpre, hl3]
    simp

/-- Under the helm test toggle, the uninstall loop never fails and its
    uninstall calls are exactly the given releases, in order. -/
lemma uninstallLoop_dry_props (ctx : MeshstackContext) (w : World)
    (hw : w.testDryRunHelm = true) :
    ∀ ps : List (String × String),
      (uninstallLoop ctx w ps).2 = none
      ∧ uninstallReleases (uninstallLoop ctx w ps).1 = ps.map Prod.snd
  | [] => ⟨rfl, rfl⟩
  | (label, release) :: rest => by
    obtain ⟨ih1, ih2⟩ := uninstallLoop_dry_props ctx w hw rest
    have htail : (uninstallLoop ctx w ((label, release) :: rest)).2
        = (uninstallLoop ctx w rest).2 := by
      simp [uninstallLoop, uninstallHelmRelease, hw]
    have htrace : (uninstallLoop ctx w ((label, release) :: rest)).1
        = Event.info label
          :: Event.info ("Uninstalling Helm release: " ++ release ++ "...")
          :: Event.preview "helm" ("uninstall" :: release :: kubeContextArgs ctx)
          :: (uninstallLoop ctx w rest).1 := by
      simp [uninstallLoop, uninstallHelmRelease, hw]
    refine ⟨htail.trans ih1, ?_⟩
    rw [htrace, uninstallReleases_info, uninstallReleases_info,
      uninstallReleases_preview_uninstall, ih2]
    rfl

/-- A confirmed destroy invocation under the helm test toggle never fails
    and issues exactly one uninstall call per resolved target: the explicit
    service release, the explicit component, and (under full/all) the six
    infrastructure components followed by every discovered service. -/
lemma destroy_confirmed_props (service component : Option String) (full all : Bool)
    (ctx : MeshstackContext) (w : World) (hw : w.testDryRunHelm = true) :
    (destroyProject service component full ctx true all w).2 = none
    ∧ uninstallReleases (destroyProject service component full ctx true all w).1
      = (service.map (fun s => "meshstack-" ++ s)).toList ++ component.toList
        ++ (if full || all then
              infraComponents
                ++ (if w.servicesDirExists then
                      (discoveredServiceNames w.serviceEntries).map (fun n => "meshstack-" ++ n)
                    else [])
            else []) := by
  obtain ⟨hd1, hd2⟩ := uninstallLoop_dry_props ctx w hw
    ((discoveredServiceNames w.serviceEntries).map
      (fun n => ("Uninstalling service: " ++ n, "meshstack-" ++ n)))
  cases service <;> cases component <;> cases hfa : full || all <;>
    cases hsd : w.servicesDirExists <;>
    refine ⟨?_, ?_⟩ <;>
    simp [destroyProject, hfa, hsd, uninstallLoop, uninstallHelmRelease, hw, hd1, hd2,
      uninstallReleases_append, uninstallReleases_info, uninstallReleases_preview_uninstall,
      uninstallReleases_nil, List.map_map, Function.comp, infraComponents]

/-- Under the helm test toggle and with neither build nor push requested,
    the deploy loop only prints the per-service header lines, in the order
    of the given service list. -/
lemma deployLoop_toggle_trace (env : Option String) (cfg : MeshstackConfig)
    (ctx : MeshstackContext) (w : World) (hw : w.testDryRunHelm = true) :
    ∀ ns : List String,
      deployLoop env false false cfg ctx w ns
        = (ns.map (fun n => Event.info ("\n--- Deploying service: " ++ n ++ " ---")), none)
  | [] => by simp [deployLoop]
  | n :: rest => by
    simp [deployLoop, deployStep, hw, deployLoop_toggle_trace env cfg ctx w hw rest]

/-- A profile name outside dev/prod/custom resolves to the unknown-profile
    error. -/
lemma profileValuesArgs_unknown (p : String) (h1 : p ≠ "dev") (h2 : p ≠ "prod")
    (h3 : p ≠ "custom") :
    profileValuesArgs (some p)
      = Except.error ("Unknown profile: " ++ p ++ ". Valid profiles are: dev, prod, custom") := by
  simp [profileValuesArgs, h1, h2, h3]

/-- A component name the catalog rejects is mapped by the plan path's
    re-implemented table to the placeholder coordinate. -/
lemma planChartName_unknown (comp : String) (h : componentChart comp = none) :
    planChartName comp = "unknown/unknown" := by
  unfold componentChart at h
  unfold planChartName
  split_ifs at h ⊢
  all_goals simp_all

/-- C1 counterexample: at the concrete unknown component name
    `nonexistent`, the direct install path fails with the UnknownTarget
    message listing the six valid keys, while the preview path
    (plan --command install -- --component nonexistent) succeeds and
    renders the placeholder chart coordinate `unknown/unknown` — so the
    two paths do not fail identically, contrary to the claim. -/
theorem c1_counterexample :
    (installComponent (some "nonexistent") none ctxPlain wHelmDry).2
      = some "Unknown component: nonexistent. Valid components are: istio, prometheus, grafana, cert-manager, nginx-ingress, vault"
    ∧ (planCommandInstall ["--component", "nonexistent"] false).2 = none
    ∧ Event.info "  • nonexistent (from chart: unknown/unknown)"
        ∈ (planCommandInstall ["--component", "nonexistent"] false).1 := by
  refine ⟨rfl, rfl, by decide⟩

/-- C1 (amended): for every component name outside the six-key catalog,
    the direct install invocation fails with an UnknownTarget error listing
    the six valid keys, but the preview path does not fail: it substitutes
    the placeholder chart coordinate `unknown/unknown` for the unknown name
    and completes successfully. -/
theorem c1_preview_placeholder_divergence (comp : String) (ctx : MeshstackContext)
    (w : World) (h : componentChart comp = none) :
    (installComponent (some comp) none ctx w).2
      = some ("Unknown component: " ++ comp
          ++ ". Valid components are: istio, prometheus, grafana, cert-manager, nginx-ingress, vault")
    ∧ (planCommandInstall ["--component", comp] false).2 = none
    ∧ Event.info ("  • " ++ comp ++ " (from chart: " ++ "unknown/unknown" ++ ")")
        ∈ (planCommandInstall ["--component", comp] false).1 := by
  refine ⟨?_, ?_, ?_⟩
  · simp [installComponent, resolveInstallTargets, h]
  · simp [planCommandInstall, planInstallCommand]
  · simp [planCommandInstall, planInstallCommand, planInstallParse,
      planChartName_unknown comp h]

/-- C1 witness: the amended claim evaluated at the concrete name
    `nonexistent`. -/
theorem c1_witness :
    (installComponent (some "nonexistent") none ctxPlain wHelmDry).2
      = some ("Unknown component: " ++ "nonexistent"
          ++ ". Valid components are: istio, prometheus, grafana, cert-manager, nginx-ingress, vault")
    ∧ (planCommandInstall ["--component", "nonexistent"] false).2 = none
    ∧ Event.info ("  • " ++ "nonexistent" ++ " (from chart: " ++ "unknown/unknown" ++ ")")
        ∈ (planCommandInstall ["--component", "nonexistent"] false).1 :=
  c1_preview_placeholder_divergence "nonexistent" ctxPlain wHelmDry (by decide)

/-- C2 counterexample: with the CLI dry-run flag set (and the test helm
    toggle unset), an install over the five default targets spawns six
    external processes (the `helm version` availability check plus one
    `helm install ... --dry-run` per target) and emits zero preview lines —
    contrary to the claim that zero processes are spawned and N preview
    lines are emitted. -/
theorem c2_counterexample :
    spawnCount (installComponent none none { ctxPlain with dryRun := true } wReal).1 = 6
    ∧ previewCmds (installComponent none none { ctxPlain with dryRun := true } wReal).1 = [] := by
  exact ⟨by decide, by decide⟩

/-- C2 (amended): the zero-spawn / N-preview-line property holds for the
    invocation-wide test dry-run toggle (MESHSTACK_TEST_DRY_RUN_HELM), not
    for the CLI --dry-run flag: with the toggle set, an install over N
    resolved targets spawns zero external processes and emits exactly N
    preview lines, each carrying the fully resolved, fixed-order argument
    vector for its target (the CLI --dry-run flag merely inserts `--dry-run`
    into each vector). -/
theorem c2_env_toggle_dry_run (component profile : Option String) (ctx : MeshstackContext)
    (w : World) (ts : List (String × String)) (vargs : List String)
    (hw : w.testDryRunHelm = true)
    (hts : (resolveInstallTargets component).2 = Except.ok ts)
    (hp : profileValuesArgs profile = Except.ok vargs) :
    (installComponent component profile ctx w).2 = none
    ∧ spawnCount (installComponent component profile ctx w).1 = 0
    ∧ (previewCmds (installComponent component profile ctx w).1).length = ts.length
    ∧ previewCmds (installComponent component profile ctx w).1
        = ts.map (fun rc => ("helm", ["install", rc.1, rc.2]
            ++ (if ctx.dryRun then ["--dry-run"] else []) ++ kubeContextArgs ctx ++ vargs)) :=
  installComponent_toggle_props component profile ctx w ts vargs hw hts hp

/-- C2 witness: the amended claim evaluated at the default five-target
    batch with no profile. -/
theorem c2_witness :
    (installComponent none none ctxPlain wHelmDry).2 = none
    ∧ spawnCount (installComponent none none ctxPlain wHelmDry).1 = 0
    ∧ (previewCmds (installComponent none none ctxPlain wHelmDry).1).length
        = defaultInstallSet.length
    ∧ previewCmds (installComponent none none ctxPlain wHelmDry).1
        = defaultInstallSet.map (fun rc => ("helm", ["install", rc.1, rc.2]
            ++ (if ctxPlain.dryRun then ["--dry-run"] else []) ++ kubeContextArgs ctxPlain
            ++ [])) :=
  c2_env_toggle_dry_run none none ctxPlain wHelmDry defaultInstallSet []
    (by rfl) (by rfl) (by rfl)

/-- C3 counterexample: an unconfirmed full destroy over a services root
    containing a service returns immediately after the notice — the whole
    trace is exactly the banner and the notice, so no target-resolution
    step is performed for reporting, contrary to the claim. -/
theorem c3_counterexample :
    destroyProject none none true ctxPlain false false
      { wHelmDry with serviceEntries := [{ name := "alpha", isDir := true }] }
    = ([Event.info "Destroying project...",
        Event.info "Dry run complete. No resources were destroyed. Use --confirm to proceed."],
       none) := by
  decide

/-- C3 (amended): when at least one of service / component / full / all is
    selected and no confirmation is supplied, destroy issues zero uninstall
    calls and emits only the not-confirmed notice, returning immediately
    (the confirmation check is evaluated once, before any uninstall call,
    and no target resolution is performed); the same invocation with the
    confirmation flag issues exactly one uninstall call per resolved
    target, in order. -/
theorem c3_confirmation_gate :
    (∀ (service component : Option String) (full all : Bool) (ctx : MeshstackContext) (w : World),
      (service.isSome || component.isSome || (full || all)) = true →
      destroyProject service component full ctx false all w
        = ([Event.info "Destroying project...",
            Event.info "Dry run complete. No resources were destroyed. Use --confirm to proceed."],
           none))
    ∧ (∀ (service component : Option String) (full all : Bool) (ctx : MeshstackContext) (w : World),
        w.testDryRunHelm = true →
        (destroyProject service component full ctx true all w).2 = none
        ∧ uninstallReleases (destroyProject service component full ctx true all w).1
          = (service.map (fun s => "meshstack-" ++ s)).toList ++ component.toList
            ++ (if full || all then
                  infraComponents
                    ++ (if w.servicesDirExists then
                          (discoveredServiceNames w.serviceEntries).map
                            (fun n => "meshstack-" ++ n)
                        else [])
                else [])) := by
  constructor
  · intro service component full all ctx w h
    simp [destroyProject, h]
  · intro service component full all ctx w hw
    exact destroy_confirmed_props service component full all ctx w hw

/-- C3 witness: the gate evaluated at a concrete unconfirmed service
    destroy and a concrete confirmed full destroy. -/
theorem c3_witness :
    destroyProject (some "web") none false ctxPlain false false wHelmDry
      = ([Event.info "Destroying project...",
          Event.info "Dry run complete. No resources were destroyed. Use --confirm to proceed."],
         none)
    ∧ uninstallReleases (destroyProject (some "web") none true ctxPlain true false wHelmDry).1
      = ["meshstack-web", "istio", "prometheus", "grafana", "cert-manager", "nginx-ingress",
         "vault"] := by
  constructor
  · exact c3_confirmation_gate.1 (some "web") none false false ctxPlain wHelmDry (by decide)
  · have h := (c3_confirmation_gate.2 (some "web") none true false ctxPlain wHelmDry rfl).2
    simpa [infraComponents] using h

/-- C4 counterexample: install with the unknown profile `bogus` (test
    toggle unset, helm available) fails with the unknown-profile error,
    but only after one external process — the `helm version` availability
    check — has already been spawned, contrary to the claim that resolution
    fails before any external process is spawned. -/
theorem c4_counterexample :
    (installComponent none (some "bogus") ctxPlain wReal).2
      = some "Unknown profile: bogus. Valid profiles are: dev, prod, custom"
    ∧ spawnCount (installComponent none (some "bogus") ctxPlain wReal).1 = 1 := by
  exact ⟨by decide, by decide⟩

/-- C4 (amended): a profile name outside {dev, prod} and different from
    custom makes install fail with the unknown-profile error before any
    chart-mutating (helm install/upgrade) process is spawned — though the
    helm availability check may already have spawned — and an environment
    name outside {dev, prod, staging} makes deploy (without build/push)
    fail with the unknown-environment error with zero processes spawned. -/
theorem c4_unknown_profile_before_mutation (p : String) (ctx1 : MeshstackContext) (w1 : World)
    (hp1 : p ≠ "dev") (hp2 : p ≠ "prod") (hp3 : p ≠ "custom")
    (hv : w1.execOk "helm" ["version"] = true)
    (e : String) (he1 : e ≠ "dev") (he2 : e ≠ "prod") (he3 : e ≠ "staging")
    (svc : String) (ctx2 : MeshstackContext) (w2 : World) (cfg : MeshstackConfig)
    (hcfg : ctx2.config = some cfg) (hroot : w2.servicesDirExists = true)
    (hch : w2.chartExists svc = true)
    (ht1 : w2.testDryRunHelm = false) (ht2 : w2.testDryRunDocker = false)
    (ht3 : w2.testDryRunKubectl = false) :
    (installComponent none (some p) ctx1 w1).2
      = some ("Unknown profile: " ++ p ++ ". Valid profiles are: dev, prod, custom")
    ∧ (installComponent none (some p) ctx1 w1).1.countP isChartMutatingSpawn = 0
    ∧ (deployService (some svc) (some e) false false ctx2 w2).2
      = some ("Unknown environment: " ++ e ++ ". Valid environments are: dev, prod, staging")
    ∧ spawnCount (deployService (some svc) (some e) false false ctx2 w2).1 = 0 := by
  have hperr := profileValuesArgs_unknown p hp1 hp2 hp3
  have henv : envValuesArgs (some e) w2
      = Except.error ("Unknown environment: " ++ e
          ++ ". Valid environments are: dev, prod, staging") := by
    simp [envValuesArgs, he1, he2, he3]
  refine ⟨?_, ?_, ?_, ?_⟩
  · by_cases hw1 : w1.testDryRunHelm <;>
      simp [installComponent, resolveInstallTargets, installLoop, hperr, hw1, hv,
        defaultInstallSet]
  · by_cases hw1 : w1.testDryRunHelm <;>
      simp [installComponent, resolveInstallTargets, installLoop, hperr, hw1, hv,
        defaultInstallSet, isChartMutatingSpawn, List.countP_cons]
  · simp [deployService, hcfg, hroot, deployLoop, deployStep, deployHelmChart, hch, henv,
      ht1, ht2, ht3]
  · cases hk2 : ctx2.kubeContext <;>
      simp [deployService, hcfg, hroot, hk2, deployLoop, deployStep, deployHelmChart, hch,
        henv, ht1, ht2, ht3, spawnCount, List.countP_cons, isSpawn]

/-- C4 witness: the amended claim evaluated at the profile `qa` for install
    and the environment `qa` for deploy. -/
theorem c4_witness :
    (installComponent none (some "qa") ctxPlain wReal).2
      = some ("Unknown profile: " ++ "qa" ++ ". Valid profiles are: dev, prod, custom")
    ∧ (installComponent none (some "qa") ctxPlain wReal).1.countP isChartMutatingSpawn = 0
    ∧ (deployService (some "web") (some "qa") false false ctxCfg wChart).2
      = some ("Unknown environment: " ++ "qa" ++ ". Valid environments are: dev, prod, staging")
    ∧ spawnCount (deployService (some "web") (some "qa") false false ctxCfg wChart).1 = 0 :=
  c4_unknown_profile_before_mutation "qa" ctxPlain wReal (by decide) (by decide) (by decide)
    rfl "qa" (by decide) (by decide) (by decide) "web" ctxCfg wChart cfgSample rfl rfl rfl
    rfl rfl rfl

/-- C5 counterexample: deploy with env `custom` fails with the
    unknown-environment error, which is not the distinct NotImplemented
    error the claim requires for every operation that accepts a profile. -/
theorem c5_counterexample :
    (deployService (some "web") (some "custom") false false ctxCfg wChart).2
      = some "Unknown environment: custom. Valid environments are: dev, prod, staging"
    ∧ some "Unknown environment: custom. Valid environments are: dev, prod, staging"
      ≠ some "Custom profile not yet implemented." := by
  exact ⟨rfl, by decide⟩

/-- C5 (amended): the name `custom` fails install's --profile with the
    distinct NotImplemented error, but deploy's --env treats `custom` as an
    ordinary unknown environment, failing with the unknown-environment
    error listing dev, prod, staging. -/
theorem c5_custom_profile_split (ctx1 : MeshstackContext) (w1 : World)
    (hv : w1.execOk "helm" ["version"] = true)
    (svc : String) (ctx2 : MeshstackContext) (w2 : World) (cfg : MeshstackConfig)
    (hcfg : ctx2.config = some cfg) (hroot : w2.servicesDirExists = true)
    (hch : w2.chartExists svc = true)
    (ht1 : w2.testDryRunHelm = false) (ht2 : w2.testDryRunDocker = false)
    (ht3 : w2.testDryRunKubectl = false) :
    (installComponent none (some "custom") ctx1 w1).2
      = some "Custom profile not yet implemented."
    ∧ (deployService (some svc) (some "custom") false false ctx2 w2).2
      = some "Unknown environment: custom. Valid environments are: dev, prod, staging" := by
  have henv : envValuesArgs (some "custom") w2
      = Except.error "Unknown environment: custom. Valid environments are: dev, prod, staging" := by
    simp [envValuesArgs]
  constructor
  · by_cases hw1 : w1.testDryRunHelm <;>
      simp [installComponent, resolveInstallTargets, installLoop, profileValuesArgs, hw1, hv,
        defaultInstallSet]
  · simp [deployService, hcfg, hroot, deployLoop, deployStep, deployHelmChart, hch, henv,
      ht1, ht2, ht3]

/-- C5 witness: the amended claim evaluated at concrete install and deploy
    invocations with the name `custom`. -/
theorem c5_witness :
    (installComponent none (some "custom") ctxPlain wReal).2
      = some "Custom profile not yet implemented."
    ∧ (deployService (some "web") (some "custom") false false ctxCfg wChart).2
      = some "Unknown environment: custom. Valid environments are: dev, prod, staging" :=
  c5_custom_profile_split ctxPlain wReal rfl "web" ctxCfg wChart cfgSample rfl rfl rfl
    rfl rfl rfl

/-- C6: install with no component resolves to the five-member default set —
    the catalog keys minus vault, in catalog order, each paired with its
    catalog coordinate — and a confirmed full destroy uninstalls exactly
    the six-member catalog (vault included, same order) followed by the
    discovered services. -/
theorem c6_default_sets (ctx : MeshstackContext) (w : World) (hw : w.testDryRunHelm = true) :
    (resolveInstallTargets none).2 = Except.ok defaultInstallSet
    ∧ defaultInstallSet
        = (catalogKeys.filter (fun k => k ≠ "vault")).filterMap
            (fun k => (componentChart k).map (fun ch => (k, ch)))
    ∧ infraComponents = catalogKeys
    ∧ uninstallReleases (destroyProject none none true ctx true false w).1
        = catalogKeys
          ++ (if w.servicesDirExists then
                (discoveredServiceNames w.serviceEntries).map (fun n => "meshstack-" ++ n)
              else []) := by
  refine ⟨rfl, by decide, by decide, ?_⟩
  have h := (destroy_confirmed_props none none true false ctx w hw).2
  simpa [infraComponents, catalogKeys] using h

/-- C6 witness: the claim evaluated at a concrete confirmed full destroy. -/
theorem c6_witness :
    (resolveInstallTargets none).2 = Except.ok defaultInstallSet
    ∧ defaultInstallSet
        = (catalogKeys.filter (fun k => k ≠ "vault")).filterMap
            (fun k => (componentChart k).map (fun ch => (k, ch)))
    ∧ infraComponents = catalogKeys
    ∧ uninstallReleases (destroyProject none none true ctxPlain true false wHelmDry).1
        = catalogKeys
          ++ (if wHelmDry.servicesDirExists then
                (discoveredServiceNames wHelmDry.serviceEntries).map
                  (fun n => "meshstack-" ++ n)
              else []) :=
  c6_default_sets ctxPlain wHelmDry rfl

/-- C7 counterexample: two services roots with the same two service
    directories in different directory-entry orders are enumerated in
    those different orders — so the enumeration is neither sorted by name
    nor independent of directory-entry order, and a confirmed full destroy
    processes the services in the unsorted entry order beta, alpha. -/
theorem c7_counterexample :
    discoveredServiceNames entsBA = ["beta", "alpha"]
    ∧ discoveredServiceNames entsAB = ["alpha", "beta"]
    ∧ discoveredServiceNames entsBA ≠ discoveredServiceNames entsAB
    ∧ uninstallReleases (destroyProject none none true ctxPlain true false
        { wHelmDry with serviceEntries := entsBA }).1
      = catalogKeys ++ ["meshstack-beta", "meshstack-alpha"] := by
  refine ⟨by decide, by decide, by decide, by decide⟩

/-- C7 (amended): every enumeration of the services root (deploy with no
    service, confirmed full destroy, status --services) processes the
    directory entries that are directories in directory-entry order, with
    no sorting applied — the order is exactly `discoveredServiceNames`. -/
theorem c7_directory_order (ctx : MeshstackContext) (w : World) (cfg : MeshstackConfig)
    (hcfg : ctx.config = some cfg) (hk : ctx.kubeContext = none)
    (hroot : w.servicesDirExists = true) (hw : w.testDryRunHelm = true)
    (hne : discoveredServiceNames w.serviceEntries ≠ []) :
    deployService none none false false ctx w
      = ([Event.info "Deploying service...", Event.info "Deploying all services."]
          ++ (discoveredServiceNames w.serviceEntries).map
              (fun n => Event.info ("\n--- Deploying service: " ++ n ++ " ---"))
          ++ [Event.info "\nDeployment process completed."], none)
    ∧ uninstallReleases (destroyProject none none true ctx true false w).1
        = infraComponents
          ++ (discoveredServiceNames w.serviceEntries).map (fun n => "meshstack-" ++ n)
    ∧ statusServicesSection w
        = [Event.info "\n--- Running App Services ---"]
          ++ (discoveredServiceNames w.serviceEntries).map
              (fun n => Event.info ("Service: " ++ n ++ " (Status: Running - placeholder)")) := by
  refine ⟨?_, ?_, ?_⟩
  · have hloop := deployLoop_toggle_trace none cfg ctx w hw
      (discoveredServiceNames w.serviceEntries)
    simp [deployService, hcfg, hk, hroot, hne, hloop]
  · have h := (destroy_confirmed_props none none true false ctx w hw).2
    simpa [hroot] using h
  · simp [statusServicesSection, hroot, hne]

/-- C7 witness: the amended claim evaluated at the beta-before-alpha
    directory order. -/
theorem c7_witness :
    deployService none none false false ctxCfg { wHelmDry with serviceEntries := entsBA }
      = ([Event.info "Deploying service...", Event.info "Deploying all services."]
          ++ (discoveredServiceNames ({ wHelmDry with serviceEntries := entsBA }
                : World).serviceEntries).map
              (fun n => Event.info ("\n--- Deploying service: " ++ n ++ " ---"))
          ++ [Event.info "\nDeployment process completed."], none)
    ∧ uninstallReleases (destroyProject none none true ctxCfg true false
          { wHelmDry with serviceEntries := entsBA }).1
        = infraComponents
          ++ (discoveredServiceNames ({ wHelmDry with serviceEntries := entsBA }
                : World).serviceEntries).map (fun n => "meshstack-" ++ n)
    ∧ statusServicesSection { wHelmDry with serviceEntries := entsBA }
        = [Event.info "\n--- Running App Services ---"]
          ++ (discoveredServiceNames ({ wHelmDry with serviceEntries := entsBA }
                : World).serviceEntries).map
              (fun n => Event.info ("Service: " ++ n ++ " (Status: Running - placeholder)")) :=
  c7_directory_order ctxCfg { wHelmDry with serviceEntries := entsBA } cfgSample
    rfl rfl rfl rfl (by decide)

/-- C8: in the prod-profile, prod-ctx scenario the five default components
    are each previewed with a command ending in
    `--kube-context prod-ctx --values prod-values.yaml`; and in general the
    install argument vector is `install <release> <coordinate>`, then
    `--dry-run` iff the dry-run flag is set, then the kube-context pair iff
    a context is given, then the values pair produced by the profile, in
    that relative order. -/
theorem c8_install_args :
    previewCmds (installComponent none (some "prod")
        { config := none, kubeContext := some "prod-ctx", dryRun := false } wHelmDry).1
      = [("helm", ["install", "istio", "istio/istio",
            "--kube-context", "prod-ctx", "--values", "prod-values.yaml"]),
         ("helm", ["install", "prometheus", "prometheus-community/prometheus",
            "--kube-context", "prod-ctx", "--values", "prod-values.yaml"]),
         ("helm", ["install", "grafana", "grafana/grafana",
            "--kube-context", "prod-ctx", "--values", "prod-values.yaml"]),
         ("helm", ["install", "cert-manager", "cert-manager/cert-manager",
            "--kube-context", "prod-ctx", "--values", "prod-values.yaml"]),
         ("helm", ["install", "nginx-ingress", "ingress-nginx/ingress-nginx",
            "--kube-context", "prod-ctx", "--values", "prod-values.yaml"])]
    ∧ (∀ (dryRun : Bool) (kctx : Option String) (profile : Option String)
          (vargs : List String),
        profileValuesArgs profile = Except.ok vargs →
        previewCmds (installComponent (some "istio") profile
            { config := none, kubeContext := kctx, dryRun := dryRun } wHelmDry).1
          = [("helm", ["install", "istio", "istio/istio"]
              ++ (if dryRun then ["--dry-run"] else [])
              ++ kubeContextArgs { config := none, kubeContext := kctx, dryRun := dryRun }
              ++ vargs)]) := by
  constructor
  · decide
  · intro dryRun kctx profile vargs hp
    have h := (installComponent_toggle_props (some "istio") profile
      { config := none, kubeContext := kctx, dryRun := dryRun } wHelmDry
      [("istio", "istio/istio")] vargs rfl rfl hp).2.2.2
    simpa using h

/-- C8 witness: the general argument-order statement evaluated with the
    dry-run flag, a kube context, and the dev profile together. -/
theorem c8_witness :
    previewCmds (installComponent (some "istio") (some "dev")
        { config := none, kubeContext := some "ctx-a", dryRun := true } wHelmDry).1
      = [("helm", ["install", "istio", "istio/istio"]
          ++ (if true then ["--dry-run"] else [])
          ++ kubeContextArgs { config := none, kubeContext := some "ctx-a", dryRun := true }
          ++ ["--values", "dev-values.yaml"])] :=
  c8_install_args.2 true (some "ctx-a") (some "dev") ["--values", "dev-values.yaml"] rfl

/-- C10: a deploy naming a service whose directory does not exist is not an
    unknown-target failure — the name is accepted as a one-element target
    set (the specific-service line is emitted) and the invocation fails
    only later: with the Dockerfile-missing error when build is requested,
    or with the Chart.yaml-missing error at the deploy step otherwise. -/
theorem c10_missing_service_dir (svc : String) (ctx : MeshstackContext) (w : World)
    (cfg : MeshstackConfig) (hcfg : ctx.config = some cfg)
    (hroot : w.servicesDirExists = true)
    (hdf : w.dockerfileExists svc = false) (hch : w.chartExists svc = false)
    (ht1 : w.testDryRunHelm = false) (ht2 : w.testDryRunDocker = false)
    (ht3 : w.testDryRunKubectl = false) :
    Event.info ("Deploying specific service: " ++ svc)
      ∈ (deployService (some svc) none true false ctx w).1
    ∧ (deployService (some svc) none true false ctx w).2
        = some ("Dockerfile not found in services/" ++ svc ++ ".")
    ∧ (deployService (some svc) none false false ctx w).2
        = some ("Helm chart (Chart.yaml) not found in services/" ++ svc ++ ".") := by
  refine ⟨?_, ?_, ?_⟩ <;>
    simp [deployService, hcfg, hroot, deployLoop, deployStep, buildDockerImage, hdf,
      deployHelmChart, hch, ht1, ht2, ht3]

/-- C10 witness: the claim evaluated at the nonexistent service `ghost`. -/
theorem c10_witness :
    Event.info ("Deploying specific service: " ++ "ghost")
      ∈ (deployService (some "ghost") none true false ctxCfg wReal).1
    ∧ (deployService (some "ghost") none true false ctxCfg wReal).2
        = some ("Dockerfile not found in services/" ++ "ghost" ++ ".")
    ∧ (deployService (some "ghost") none false false ctxCfg wReal).2
        = some ("Helm chart (Chart.yaml) not found in services/" ++ "ghost" ++ ".") :=
  c10_missing_service_dir "ghost" ctxCfg wReal cfgSample rfl rfl rfl rfl rfl rfl rfl

end Meshstack



